import Mathlib

/-!
Verification of the dngateway reverse HTTP/WebSocket gateway (src/gateway.js).

Strings manipulated by the hostname codec are modelled as lists of UTF-16
code units (`List Nat`), which is the unit `String.prototype.replace` and
`charCodeAt` operate on in JavaScript.  Middleware-level strings are modelled
as Lean `String`s.
-/

/-- The character class `[\w.-]` of `encode_hostname`'s regex: ASCII letters,
digits, underscore (95), dot (46) and hyphen (45).  A code unit matching it is
left untouched by the encoder. -/
abbrev wsafe (c : Nat) : Prop :=
  (65 ≤ c ∧ c ≤ 90) ∨ (97 ≤ c ∧ c ≤ 122) ∨ (48 ≤ c ∧ c ≤ 57) ∨ c = 95 ∨ c = 46 ∨ c = 45

/-- The character class `[0-9]` used by `decode_hostname`'s regex. -/
abbrev isDigitCp (c : Nat) : Prop := 48 ≤ c ∧ c ≤ 57

/-- Decimal digit code units of `n`, most significant first: the model of
JavaScript `n.toString(10)`.  Fuel-based so that the kernel can evaluate it;
the fuel `n` is always sufficient since the digit count of `n` is at most `n`
for positive `n`. -/
def decDigitsAux : Nat → Nat → List Nat
  | 0, n => [48 + n % 10]
  | fuel+1, n => if n < 10 then [48 + n] else decDigitsAux fuel (n / 10) ++ [48 + n % 10]

/-- Decimal representation of `n` as a list of digit code units. -/
def decDigits (n : Nat) : List Nat := decDigitsAux n n

/-- Model of `String.prototype.padStart(3, '0')` on a digit string. -/
def padStart3 (l : List Nat) : List Nat := List.replicate (3 - l.length) 48 ++ l

/-- The replacement performed by `encode_hostname` (src/gateway.js:13-18) on a
single code unit: a safe character is kept, any other character `c` becomes
`".e" + c.toString().padStart(3, '0') + "."`. -/
def encodeChar (c : Nat) : List Nat :=
  if wsafe c then [c] else 46 :: 101 :: (padStart3 (decDigits c) ++ [46])

/-- `encode_hostname` (src/gateway.js:13-18): replace every character outside
`[\w.-]` by its `.eNNN.` escape.  The regex is a single-character class, so the
global replace acts independently on each code unit. -/
def encode_hostname : List Nat → List Nat
  | [] => []
  | c :: rest => encodeChar c ++ encode_hostname rest

/-- Worker for `decode_hostname`, with fuel for structural recursion.  Scans
left to right; whenever the window starting at the current position matches
`[.]e[0-9]{3}[.]` it is replaced by the character whose decimal code is the
three digits, and scanning resumes after the match; otherwise one code unit is
copied.  This is exactly the semantics of `String.prototype.replace` with the
global regex `/[.]e[0-9]{3}[.]/g`. -/
def decodeAux : Nat → List Nat → List Nat
  | _, [] => []
  | 0, l => l
  | fuel+1, c :: rest =>
    if c = 46 then
      match rest with
      | e :: a :: b :: d :: p :: rest2 =>
        if e = 101 ∧ isDigitCp a ∧ isDigitCp b ∧ isDigitCp d ∧ p = 46 then
          ((a - 48) * 100 + (b - 48) * 10 + (d - 48)) :: decodeAux fuel rest2
        else c :: decodeAux fuel rest
      | _ => c :: decodeAux fuel rest
    else c :: decodeAux fuel rest

/-- `decode_hostname` (src/gateway.js:24-29): replace every occurrence of
`.eNNN.` by the character with decimal code `NNN`. -/
def decode_hostname (l : List Nat) : List Nat := decodeAux l.length l

/-- Analysis helper (not part of the source): does the regex
`[.]e[0-9]{3}[.]` match at the head of `l`?  If so, return the decoded
character and the remainder after the match. -/
def decodeStep (l : List Nat) : Option (Nat × List Nat) :=
  match l with
  | c :: e :: a :: b :: d :: p :: rest2 =>
    if c = 46 ∧ e = 101 ∧ isDigitCp a ∧ isDigitCp b ∧ isDigitCp d ∧ p = 46 then
      some ((a - 48) * 100 + (b - 48) * 10 + (d - 48), rest2)
    else none
  | _ => none

/-- A position at which decoding the encoded string would go wrong: the source
string contains `.e` followed by three digits followed by a character that is
either `.` or unsafe (in the latter case the escape of that character starts
with `.`, completing a spurious `[.]e[0-9]{3}[.]` match in the encoded
string). -/
def spuriousAt (l : List Nat) : Bool :=
  match l with
  | c :: e :: a :: b :: d :: x :: _ =>
    decide (c = 46 ∧ e = 101 ∧ isDigitCp a ∧ isDigitCp b ∧ isDigitCp d ∧ (x = 46 ∨ ¬ wsafe x))
  | _ => false

/-- `hasSpurious s` holds when some position of `s` is spurious in the sense of
`spuriousAt`. -/
def hasSpurious : List Nat → Bool
  | [] => false
  | c :: rest => spuriousAt (c :: rest) || hasSpurious rest

/- Basic facts about the digit printer. -/

theorem decDigitsAux_succ (f n : Nat) :
    decDigitsAux (f + 1) n =
      if n < 10 then [48 + n] else decDigitsAux f (n / 10) ++ [48 + n % 10] := rfl

theorem decDigitsAux_mem : ∀ f n, ∀ d ∈ decDigitsAux f n, 48 ≤ d ∧ d ≤ 57 := by
  intro f
  induction f with
  | zero =>
    intro n d hd
    simp only [decDigitsAux, List.mem_singleton] at hd
    omega
  | succ f ih =>
    intro n d hd
    rw [decDigitsAux_succ] at hd
    by_cases h : n < 10
    · rw [if_pos h] at hd
      simp only [List.mem_singleton] at hd
      omega
    · rw [if_neg h, List.mem_append] at hd
      rcases hd with hd | hd
      · exact ih (n / 10) d hd
      · simp only [List.mem_singleton] at hd
        omega

theorem decDigits_mem (n : Nat) : ∀ d ∈ decDigits n, 48 ≤ d ∧ d ≤ 57 :=
  decDigitsAux_mem n n

/-- For `c < 1000` the padded digit block is the three decimal digits of `c`. -/
theorem padStart3_decDigits {c : Nat} (h : c < 1000) :
    padStart3 (decDigits c) = [48 + c / 100, 48 + c / 10 % 10, 48 + c % 10] := by
  rcases Nat.lt_or_ge c 10 with h1 | h1
  · have e1 : decDigits c = [48 + c] := by
      cases c with
      | zero => rfl
      | succ m =>
        show decDigitsAux (m + 1) (m + 1) = _
        rw [decDigitsAux_succ, if_pos h1]
    rw [e1]
    show [48, 48, 48 + c] = _
    simp only [List.cons.injEq, and_true]
    omega
  · rcases Nat.lt_or_ge c 100 with h2 | h2
    · obtain ⟨m, rfl⟩ : ∃ m, c = m + 10 := ⟨c - 10, by omega⟩
      have e1 : decDigits (m + 10) = [48 + (m + 10) / 10, 48 + (m + 10) % 10] := by
        show decDigitsAux (m + 9 + 1) (m + 10) = _
        rw [decDigitsAux_succ, if_neg (by omega)]
        have e2 : decDigitsAux (m + 9) ((m + 10) / 10) = [48 + (m + 10) / 10] := by
          rw [show m + 9 = m + 8 + 1 from rfl, decDigitsAux_succ, if_pos (by omega)]
        rw [e2]
        rfl
      rw [e1]
      show [48, 48 + (m + 10) / 10, 48 + (m + 10) % 10] = _
      simp only [List.cons.injEq, and_true]
      omega
    · obtain ⟨m, rfl⟩ : ∃ m, c = m + 100 := ⟨c - 100, by omega⟩
      have e1 : decDigits (m + 100) =
          [48 + (m + 100) / 100, 48 + (m + 100) / 10 % 10, 48 + (m + 100) % 10] := by
        show decDigitsAux (m + 99 + 1) (m + 100) = _
        rw [decDigitsAux_succ, if_neg (by omega)]
        have e2 : decDigitsAux (m + 99) ((m + 100) / 10) =
            [48 + (m + 100) / 10 / 10, 48 + (m + 100) / 10 % 10] := by
          rw [show m + 99 = m + 98 + 1 from rfl, decDigitsAux_succ, if_neg (by omega)]
          have e3 : decDigitsAux (m + 98) ((m + 100) / 10 / 10) =
              [48 + (m + 100) / 10 / 10] := by
            rw [show m + 98 = m + 97 + 1 from rfl, decDigitsAux_succ, if_pos (by omega)]
          rw [e3]
          rfl
        rw [e2]
        have e4 : (m + 100) / 10 / 10 = (m + 100) / 100 := by omega
        rw [e4]
        rfl
      rw [e1]
      simp [padStart3]

/- Unfolding lemmas for the decoder. -/

theorem decodeAux_nil (f : Nat) : decodeAux f [] = [] := by
  cases f <;> rfl

theorem decodeAux_succ_eq (f : Nat) (c : Nat) (rest : List Nat) :
    decodeAux (f + 1) (c :: rest) =
      match decodeStep (c :: rest) with
      | some (v, r2) => v :: decodeAux f r2
      | none => c :: decodeAux f rest := by
  by_cases hc : c = 46
  · subst hc
    rcases rest with _ | ⟨e, _ | ⟨a, _ | ⟨b, _ | ⟨d, _ | ⟨p, r2⟩⟩⟩⟩⟩
    · simp [decodeAux, decodeStep]
    · simp [decodeAux, decodeStep]
    · simp [decodeAux, decodeStep]
    · simp [decodeAux, decodeStep]
    · simp [decodeAux, decodeStep]
    · by_cases hg : e = 101 ∧ isDigitCp a ∧ isDigitCp b ∧ isDigitCp d ∧ p = 46
      · obtain ⟨he, ha, hb, hd, hp⟩ := hg
        subst he
        subst hp
        simp only [decodeAux, decodeStep]
        split_ifs <;> first
          | rfl
          | (exfalso; simp_all)
      · simp [decodeAux, decodeStep, hg]
  · rcases rest with _ | ⟨e, _ | ⟨a, _ | ⟨b, _ | ⟨d, _ | ⟨p, r2⟩⟩⟩⟩⟩ <;>
      simp [decodeAux, decodeStep, hc]

theorem decodeStep_some_length {l : List Nat} {v : Nat} {r2 : List Nat}
    (h : decodeStep l = some (v, r2)) : l.length = r2.length + 6 := by
  rcases l with _ | ⟨c, _ | ⟨e, _ | ⟨a, _ | ⟨b, _ | ⟨d, _ | ⟨p, rest2⟩⟩⟩⟩⟩⟩ <;>
    simp only [decodeStep] at h
  · exact absurd h (by simp)
  · exact absurd h (by simp)
  · exact absurd h (by simp)
  · exact absurd h (by simp)
  · exact absurd h (by simp)
  · exact absurd h (by simp)
  · split at h
    · simp only [Option.some.injEq, Prod.mk.injEq] at h
      simp [← h.2]
    · exact absurd h (by simp)

/-- Fuel irrelevance: any two sufficient fuels decode a list identically. -/
theorem decodeAux_congr :
    ∀ n l f1 f2, List.length l ≤ n → List.length l ≤ f1 → List.length l ≤ f2 →
      decodeAux f1 l = decodeAux f2 l := by
  intro n
  induction n using Nat.strong_induction_on with
  | _ n ih =>
    intro l f1 f2 hn h1 h2
    cases l with
    | nil => rw [decodeAux_nil, decodeAux_nil]
    | cons c rest =>
      simp only [List.length_cons] at hn h1 h2
      obtain ⟨f1p, rfl⟩ : ∃ k, f1 = k + 1 := ⟨f1 - 1, by omega⟩
      obtain ⟨f2p, rfl⟩ : ∃ k, f2 = k + 1 := ⟨f2 - 1, by omega⟩
      rw [decodeAux_succ_eq, decodeAux_succ_eq]
      rcases hstep : decodeStep (c :: rest) with _ | ⟨v, r2⟩
      · simp only []
        have := ih rest.length (by omega) rest f1p f2p le_rfl (by omega) (by omega)
        rw [this]
      · simp only []
        have hl := decodeStep_some_length hstep
        simp only [List.length_cons] at hl
        have := ih r2.length (by omega) r2 f1p f2p le_rfl (by omega) (by omega)
        rw [this]

theorem decodeAux_eq_decode {f : Nat} {l : List Nat} (h : List.length l ≤ f) :
    decodeAux f l = decode_hostname l :=
  decodeAux_congr (max f l.length) l f l.length (by omega) h le_rfl

/- Derived equations for `decode_hostname` itself. -/

theorem decode_hostname_nil : decode_hostname [] = [] := rfl

theorem decode_hostname_cons (c : Nat) (rest : List Nat) :
    decode_hostname (c :: rest) =
      match decodeStep (c :: rest) with
      | some (v, r2) => v :: decode_hostname r2
      | none => c :: decode_hostname rest := by
  show decodeAux (rest.length + 1) (c :: rest) = _
  rw [decodeAux_succ_eq]
  rcases hstep : decodeStep (c :: rest) with _ | ⟨v, r2⟩
  · simp only []
    rw [decodeAux_eq_decode le_rfl]
  · simp only []
    have hl := decodeStep_some_length hstep
    simp only [List.length_cons] at hl
    rw [decodeAux_eq_decode (by omega)]

theorem decode_hostname_cons_ne {c : Nat} (rest : List Nat) (h : c ≠ 46) :
    decode_hostname (c :: rest) = c :: decode_hostname rest := by
  rw [decode_hostname_cons]
  have hstep : decodeStep (c :: rest) = none := by
    rcases rest with _ | ⟨e, _ | ⟨a, _ | ⟨b, _ | ⟨d, _ | ⟨p, r2⟩⟩⟩⟩⟩ <;>
      simp [decodeStep, h]
  rw [hstep]

theorem decodeStep_token {a b d : Nat} (r : List Nat)
    (ha : isDigitCp a) (hb : isDigitCp b) (hd : isDigitCp d) :
    decodeStep (46 :: 101 :: a :: b :: d :: 46 :: r) =
      some ((a - 48) * 100 + (b - 48) * 10 + (d - 48), r) := by
  simp [decodeStep, ha, hb, hd]

theorem decode_hostname_token {a b d : Nat} (r : List Nat)
    (ha : isDigitCp a) (hb : isDigitCp b) (hd : isDigitCp d) :
    decode_hostname (46 :: 101 :: a :: b :: d :: 46 :: r) =
      ((a - 48) * 100 + (b - 48) * 10 + (d - 48)) :: decode_hostname r := by
  rw [decode_hostname_cons, decodeStep_token r ha hb hd]

/- Facts about the encoder. -/

theorem encodeChar_safe {c : Nat} (h : wsafe c) : encodeChar c = [c] := by
  rw [encodeChar, if_pos h]

theorem encodeChar_unsafe {c : Nat} (h : ¬ wsafe c) (hlt : c < 1000) :
    encodeChar c = [46, 101, 48 + c / 100, 48 + c / 10 % 10, 48 + c % 10, 46] := by
  rw [encodeChar, if_neg h, padStart3_decDigits hlt]
  rfl

theorem encode_hostname_cons (c : Nat) (t : List Nat) :
    encode_hostname (c :: t) = encodeChar c ++ encode_hostname t := rfl

/-- If the encoded string starts with a safe character other than `.`, that
character is the head of the source string. -/
theorem encode_head_safe {t : List Nat} {x : Nat} {r : List Nat}
    (hx46 : x ≠ 46) (h : encode_hostname t = x :: r) :
    ∃ t2, t = x :: t2 ∧ r = encode_hostname t2 := by
  cases t with
  | nil => exact absurd h (by simp [encode_hostname])
  | cons c t2 =>
    rw [encode_hostname_cons] at h
    by_cases hc : wsafe c
    · rw [encodeChar_safe hc, List.singleton_append] at h
      injection h with h1 h2
      subst h1
      exact ⟨t2, rfl, h2.symm⟩
    · rw [encodeChar, if_neg hc] at h
      simp only [List.cons_append] at h
      injection h with h1 _
      exact absurd h1.symm hx46

/-- If the encoded string starts with `.`, the source string starts with a
character that is `.` itself or unsafe. -/
theorem encode_head_46 {t : List Nat} {r : List Nat}
    (h : encode_hostname t = 46 :: r) :
    ∃ x t2, t = x :: t2 ∧ (x = 46 ∨ ¬ wsafe x) := by
  cases t with
  | nil => exact absurd h (by simp [encode_hostname])
  | cons c t2 =>
    rw [encode_hostname_cons] at h
    by_cases hc : wsafe c
    · rw [encodeChar_safe hc, List.singleton_append] at h
      injection h with h1 _
      exact ⟨c, t2, rfl, Or.inl h1⟩
    · exact ⟨c, t2, rfl, Or.inr hc⟩

/-- Without a spurious occurrence at this position, the decoder finds no
`[.]e[0-9]{3}[.]` match spanning a literal dot and the encoded tail. -/
theorem decodeStep_46_encode_none {t : List Nat} (hsp : spuriousAt (46 :: t) = false) :
    decodeStep (46 :: encode_hostname t) = none := by
  rcases hE : encode_hostname t with _ | ⟨e, _ | ⟨a, _ | ⟨b, _ | ⟨d, _ | ⟨p, r2⟩⟩⟩⟩⟩
  · rfl
  · rfl
  · rfl
  · rfl
  · rfl
  · by_cases hg : e = 101 ∧ isDigitCp a ∧ isDigitCp b ∧ isDigitCp d ∧ p = 46
    · exfalso
      obtain ⟨he, ha, hb, hd, hp⟩ := hg
      subst he
      subst hp
      obtain ⟨t1, rfl, hE1⟩ := encode_head_safe (show (101 : Nat) ≠ 46 by omega) hE
      obtain ⟨u2, rfl, hE2⟩ := encode_head_safe (show a ≠ 46 by omega) hE1.symm
      obtain ⟨u3, rfl, hE3⟩ := encode_head_safe (show b ≠ 46 by omega) hE2.symm
      obtain ⟨u4, rfl, hE4⟩ := encode_head_safe (show d ≠ 46 by omega) hE3.symm
      obtain ⟨x, u5, rfl, hx⟩ := encode_head_46 hE4.symm
      simp only [spuriousAt, decide_eq_false_iff_not] at hsp
      exact hsp ⟨trivial, trivial, ha, hb, hd, hx⟩
    · simp only [decodeStep]
      exact if_neg (fun hcon => hg hcon.2)

theorem decode_encode_cons_46 {t : List Nat} (hsp : spuriousAt (46 :: t) = false) :
    decode_hostname (46 :: encode_hostname t) =
      46 :: decode_hostname (encode_hostname t) := by
  rw [decode_hostname_cons, decodeStep_46_encode_none hsp]

/-- The amended round-trip: decoding undoes encoding for strings of code units
`≤ 999` that have no spurious position. -/
theorem decode_encode_of_noSpurious :
    ∀ s : List Nat, (∀ c ∈ s, c ≤ 999) → hasSpurious s = false →
      decode_hostname (encode_hostname s) = s := by
  intro s
  induction s with
  | nil => intro _ _; rfl
  | cons c t ih =>
    intro h1 h2
    have hc : c ≤ 999 := h1 c (List.mem_cons_self c t)
    have h1t : ∀ x ∈ t, x ≤ 999 := fun x hx => h1 x (List.mem_cons_of_mem c hx)
    simp only [hasSpurious, Bool.or_eq_false_iff] at h2
    have iht := ih h1t h2.2
    by_cases hw : wsafe c
    · rw [encode_hostname_cons, encodeChar_safe hw, List.singleton_append]
      by_cases hc46 : c = 46
      · subst hc46
        rw [decode_encode_cons_46 h2.1, iht]
      · rw [decode_hostname_cons_ne _ hc46, iht]
    · rw [encode_hostname_cons, encodeChar_unsafe hw (by omega)]
      simp only [List.cons_append, List.nil_append]
      rw [decode_hostname_token _ ⟨by omega, by omega⟩ ⟨by omega, by omega⟩
        ⟨by omega, by omega⟩]
      rw [iht]
      congr 1
      omega

/-- Every code unit the encoder emits lies in the safe class `[\w.-]`. -/
theorem encode_mem_safe : ∀ s : List Nat, ∀ x ∈ encode_hostname s, wsafe x := by
  intro s
  induction s with
  | nil =>
    intro x hx
    exact absurd hx (by simp [encode_hostname])
  | cons c t ih =>
    intro x hx
    rw [encode_hostname_cons, List.mem_append] at hx
    rcases hx with hx | hx
    · rw [encodeChar] at hx
      by_cases hw : wsafe c
      · rw [if_pos hw] at hx
        simp only [List.mem_singleton] at hx
        subst hx
        exact hw
      · rw [if_neg hw] at hx
        simp only [List.mem_cons, List.mem_append, List.mem_singleton,
          List.not_mem_nil, or_false] at hx
        rcases hx with rfl | rfl | hin | rfl
        · omega
        · omega
        · simp only [padStart3, List.mem_append, List.mem_replicate] at hin
          rcases hin with ⟨_, rfl⟩ | hin
          · omega
          · have := decDigits_mem c x hin
            omega
        · omega
    · exact ih x hx

/-- Encoding is the identity on strings made of safe characters only. -/
theorem encode_safe_id : ∀ s : List Nat, (∀ c ∈ s, wsafe c) → encode_hostname s = s := by
  intro s
  induction s with
  | nil => intro _; rfl
  | cons c t ih =>
    intro h
    rw [encode_hostname_cons, encodeChar_safe (h c (List.mem_cons_self c t)),
      List.singleton_append, ih (fun x hx => h x (List.mem_cons_of_mem c hx))]

/-- C1 (amended): for every string of code units in `[0,999]` that contains no
occurrence of `.e` followed by three digits followed by a character that is `.`
or outside `[A-Za-z0-9_.-]`, `decode_hostname (encode_hostname s) = s`; and
`encode_hostname` is the identity on strings made of characters in
`[A-Za-z0-9_.-]`.  The original claim, quantifying over all strings with code
units in `[0,999]`, is refuted by `hostname_codec_round_trip_counterexample`. -/
theorem hostname_codec_round_trip :
    (∀ s : List Nat, (∀ c ∈ s, c ≤ 999) → hasSpurious s = false →
        decode_hostname (encode_hostname s) = s)
    ∧ (∀ s : List Nat, (∀ c ∈ s, wsafe c) → encode_hostname s = s) :=
  ⟨decode_encode_of_noSpurious, encode_safe_id⟩

/-- C1 counterexample: the string `".e058."` (code units 46 101 48 53 56 46)
has all code units `≤ 999` — indeed all in the safe class, so encoding leaves
it unchanged — yet decoding the encoding yields `":"` (code unit 58), not the
original string. -/
theorem hostname_codec_round_trip_counterexample :
    (∀ c ∈ ([46, 101, 48, 53, 56, 46] : List Nat), c ≤ 999)
    ∧ encode_hostname [46, 101, 48, 53, 56, 46] = [46, 101, 48, 53, 56, 46]
    ∧ decode_hostname (encode_hostname [46, 101, 48, 53, 56, 46]) ≠
        [46, 101, 48, 53, 56, 46] := by
  decide

/-- C1 witness: the amended round-trip applied to `"a:b"` (which has no
spurious position) and the identity half applied to the safe string `"hi.-"`. -/
theorem hostname_codec_round_trip_witness :
    decode_hostname (encode_hostname [97, 58, 98]) = [97, 58, 98]
    ∧ encode_hostname [104, 105, 46, 45] = [104, 105, 46, 45] :=
  ⟨hostname_codec_round_trip.1 [97, 58, 98] (by decide) (by decide),
   hostname_codec_round_trip.2 [104, 105, 46, 45] (by decide)⟩

/-- C10: the encoder is idempotent, because every code unit it outputs lies in
the safe class `[A-Za-z0-9_.-]` which the encoder leaves unreplaced. -/
theorem encode_hostname_idempotent (s : List Nat) :
    (∀ x ∈ encode_hostname s, wsafe x)
    ∧ encode_hostname (encode_hostname s) = encode_hostname s :=
  ⟨encode_mem_safe s, encode_safe_id _ (encode_mem_safe s)⟩

/-- C10 witness: idempotence evaluated at the concrete string `"a:b"`. -/
theorem encode_hostname_idempotent_witness :
    (∀ x ∈ encode_hostname [97, 58, 98], wsafe x)
    ∧ encode_hostname (encode_hostname [97, 58, 98]) =
        encode_hostname [97, 58, 98] :=
  encode_hostname_idempotent [97, 58, 98]

/-!  Middleware-level model.  Strings are Lean `String`s; helpers below model
the JavaScript string operations the gateway uses. -/

/-- JavaScript `String.prototype.endsWith`. -/
def strEndsWith (s pat : String) : Bool := pat.data.isSuffixOf s.data

/-- JavaScript `String.prototype.substr(0, n)` (a negative `n` yields the
empty string, matched by truncated subtraction at call sites). -/
def strTake (s : String) (n : Nat) : String := String.mk (s.data.take n)

/-- Remove the last `n` characters. -/
def strDropRight (s : String) (n : Nat) : String :=
  String.mk (s.data.take (s.data.length - n))

/-- JavaScript `String.prototype.lastIndexOf`: the last index at which `pat`
occurs in `s`, if any. -/
def lastIndexOf (pat s : List Char) : Option Nat :=
  ((List.range (s.length + 1)).filter (fun i => pat.isPrefixOf (s.drop i))).getLast?

/-- UTF-16 code units of a string (all strings in the claims are ASCII, where
code units and codepoints agree). -/
def codeUnits (s : String) : List Nat := s.data.map Char.toNat

/-- Build a string back from code units. -/
def ofCodeUnits (l : List Nat) : String := String.mk (l.map (fun n => Char.ofNat n))

/-- `encode_hostname` acting on a `String`. -/
def encode_hostname_str (s : String) : String := ofCodeUnits (encode_hostname (codeUnits s))

/-- `decode_hostname` acting on a `String`. -/
def decode_hostname_str (s : String) : String := ofCodeUnits (decode_hostname (codeUnits s))

/- The DNS status map. -/

/-- Node's `dns.NOTFOUND`. -/
def dnsNOTFOUND : String := "ENOTFOUND"

/-- Node's `dns.REFUSED`. -/
def dnsREFUSED : String := "EREFUSED"

/-- Node's `dns.CANCELLED`. -/
def dnsCANCELLED : String := "ECANCELLED"

/-- Node's `dns.CONNREFUSED`. -/
def dnsCONNREFUSED : String := "ECONNREFUSED"

/-- `map_dns_status_to_http_code` (src/gateway.js:31-43).  `none` models a
null/undefined error code; the `switch` sends it to `default`. -/
def map_dns_status_to_http_code (code : Option String) : Nat :=
  if code = some dnsNOTFOUND then 404
  else if code = some dnsREFUSED ∨ code = some dnsCANCELLED ∨ code = some dnsCONNREFUSED
    then 403
  else 500

/- URL model. -/

/-- Model of the WHATWG `URL` fields the gateway reads and writes.  `scheme`
stores the protocol without the trailing colon; the JavaScript `protocol`
getter (which includes the colon) is `Url.protocol` below.  `host` is
`hostname:port` as in the WHATWG `host` attribute. -/
structure Url where
  scheme : String
  host : String
  hostname : String := ""
  port : String := ""
  pathname : String := ""
  search : String := ""
deriving DecidableEq

/-- The JavaScript `URL.protocol` getter: scheme plus trailing colon. -/
def Url.protocol (u : Url) : String := u.scheme ++ ":"

/-- Characters of the assigned protocol value up to the first `:` (code 58),
as the WHATWG protocol setter parses it. -/
def takeUntilColon : List Char → List Char
  | [] => []
  | c :: rest => if c = Char.ofNat 58 then [] else c :: takeUntilColon rest

/-- The WHATWG `URL.protocol` setter for the special schemes the gateway
uses: the assigned string is read up to an optional trailing colon and
replaces the scheme. -/
def Url.setProtocol (u : Url) (v : String) : Url :=
  { u with scheme := String.mk (takeUntilColon v.data) }

/- Request and configuration model. -/

/-- The request headers the gateway reads: `host`, the two websocket markers
(src/gateway.js:545-547), and an opaque list of all remaining headers carried
along for the header-forwarding claim (src/gateway.js:284-291). -/
structure ReqHeaders where
  host : Option String := none
  sec_websocket_protocol : Option String := none
  upgrade : Option String := none
  rest : List (String × String) := []
deriving DecidableEq

/-- The request fields the gateway reads. -/
structure Request where
  protocol : String := "http"
  originalUrl : String := ""
  baseUrl : String := ""
  method : String := "GET"
  headers : ReqHeaders := {}
deriving DecidableEq

/-- `req.get('host')`: the Host header, which the gateway dereferences
unconditionally. -/
def req_host (req : Request) : String := (req.headers.host).getD ""

/-- Gateway configuration (constructor, src/gateway.js:189-206), immutable
after construction. -/
structure Gateway where
  gateway_host : Option String := none
  force_protocol : Option String := none
  force_http : Bool := true
  force_websocket_protocol : Bool := true
  gateway_subdomain : String := "gateway-proxy"
  socket_ports : List Nat := [22]
deriving DecidableEq

/-- `GatewayRequestInfo` (src/gateway.js:45-70). -/
structure GatewayRequestInfo where
  is_gateway_intercept : Bool := false
  is_gateway_host : Bool := false
  is_websocket_request : Bool := false
  target_id : Option String := none
  gateway_domain_postfix : Option String := none
  target_method : Option String := none
  backend_url : Option Url := none
deriving DecidableEq

/-- The pluggable backend parser (`GatewayBackendParser`,
src/gateway.js:72-156).  The two URL-producing slots are modelled by the
supplied callbacks, returning an already-coerced `Option Url` (`none` models
returning null); their JavaScript defaults build a URL by string parsing,
which no claim exercises.  `parse_protocol_fn` and `parse_method_fn` model
the corresponding `invoke_methods` entries: `none` means "use the default
implementation". -/
structure GatewayBackendParser where
  parse_url_from_id_fn : Gateway → Request → String → Option Url
  parse_url_from_route_fn : Gateway → Request → Option Url
  parse_protocol_fn : Option (Gateway → Request → String) := none
  parse_method_fn : Option (Gateway → Request → String) := none

/-- `GatewayBackendParser.parse_protocol` (src/gateway.js:132-144): the
request protocol, overridden by `force_protocol` when set, then downgraded
`https → http` when `force_http`.  The source downgrades only `https`; a
`wss` downgrade exists only as commented-out code (src/gateway.js:138-139). -/
def GatewayBackendParser.parse_protocol (p : GatewayBackendParser) (g : Gateway)
    (req : Request) : String :=
  match p.parse_protocol_fn with
  | some f => f g req
  | none =>
    let t := (g.force_protocol).getD req.protocol
    if g.force_http && (t == "https") then "http" else t

/-- `GatewayBackendParser.parse_method` (src/gateway.js:151-155). -/
def GatewayBackendParser.parse_method (p : GatewayBackendParser) (g : Gateway)
    (req : Request) : String :=
  match p.parse_method_fn with
  | some f => f g req
  | none => req.method

/-- `Gateway.get_gateway_host` (src/gateway.js:479-492): the configured host
when set, else auto-detected from the Host header by taking what follows the
last occurrence of `"." + gateway_subdomain + "."`. -/
def get_gateway_host (g : Gateway) (req : Request) : String :=
  match g.gateway_host with
  | some h => h
  | none =>
    let host := req_host req
    let sep := "." ++ g.gateway_subdomain ++ "."
    match lastIndexOf sep.data host.data with
    | none => host
    | some i => String.mk (host.data.drop (i + sep.length))

/-- Fallback URL used only to totalise accessors on branches where the source
has already established `backend_url != null`. -/
def emptyUrl : Url := { scheme := "", host := "" }

/-- `Gateway.get_gateway_host_redirect` (src/gateway.js:499-512). -/
def get_gateway_host_redirect (g : Gateway) (req : Request)
    (info : GatewayRequestInfo) : String :=
  let redirect_host := get_gateway_host g req
  let u := (info.backend_url).getD emptyUrl
  Url.protocol u ++ "//" ++ encode_hostname_str ((info.target_id).getD "") ++ "." ++
    g.gateway_subdomain ++ "." ++ redirect_host ++ u.pathname ++ u.search

/-- `Gateway._parse_request_core_info` (src/gateway.js:539-559). -/
def parse_request_core_info (p : GatewayBackendParser) (g : Gateway)
    (req : Request) : GatewayRequestInfo :=
  let rh := req_host req
  let pf := g.gateway_subdomain ++ "." ++ get_gateway_host g req
  let isWs := (req.headers.sec_websocket_protocol).isSome ||
    (req.headers.upgrade == some "websocket")
  if strEndsWith rh pf then
    let tid := decode_hostname_str (strTake rh (rh.length - pf.length - 1))
    { is_gateway_intercept := false
      is_gateway_host := true
      is_websocket_request := isWs
      target_id := some tid
      gateway_domain_postfix := some pf
      target_method := none
      backend_url := p.parse_url_from_id_fn g req tid }
  else
    { is_gateway_intercept := false
      is_gateway_host := false
      is_websocket_request := isWs
      target_id := none
      gateway_domain_postfix := some pf
      target_method := none
      backend_url := none }

/-- The websocket path strip (src/gateway.js:593-598):
`pathname.replace(/\/[.]websocket$/, '')` removes one trailing `/.websocket`
segment when present. -/
def strip_websocket_path (pathstr : String) : String :=
  if strEndsWith pathstr "/.websocket" then strDropRight pathstr 11 else pathstr

/-- `Gateway._parse_request_intercept_info` (src/gateway.js:567-600). -/
def parse_request_intercept_info (p : GatewayBackendParser)
    (info : GatewayRequestInfo) (req : Request) (g : Gateway) : GatewayRequestInfo :=
  match (if info.is_gateway_host then info.backend_url
         else p.parse_url_from_route_fn g req) with
  | none => { info with is_gateway_intercept := false, backend_url := none }
  | some u0 =>
    let tid := match info.target_id with
      | some t => if t = "" then u0.host else t
      | none => u0.host
    let u1 := Url.setProtocol u0 (GatewayBackendParser.parse_protocol p g req)
    let u2 := if info.is_websocket_request then
        { u1 with pathname := strip_websocket_path u1.pathname }
      else u1
    { info with
      is_gateway_intercept := true
      target_id := some tid
      target_method := some (GatewayBackendParser.parse_method p g req)
      backend_url := some u2 }

/-- Observable behaviour of a user filter callback (src/gateway.js:615-639):
whether its return value is strictly equal to `false`, and whether it invoked
the `next` it was passed (`next_with_override`). -/
structure FilterAction where
  returns_false : Bool
  calls_next : Bool
deriving DecidableEq

/-- Outcome of one middleware run (src/gateway.js:615-677).  `pass_next`
models `return next()`; `pass_override` models returning the result of the
`next` call the filter made; `websocket_proxy` models dispatching
`create_websocket_proxy`; `redirect status location` models
`res.redirect(location)`, which per the Express contract responds with HTTP
status 302; `http_proxy` models dispatching `send_proxy_request`. -/
inductive MiddlewareOutcome where
  | pass_next
  | pass_override
  | websocket_proxy (info : GatewayRequestInfo)
  | redirect (status : Nat) (location : String) (info : GatewayRequestInfo)
  | http_proxy (info : GatewayRequestInfo)
deriving DecidableEq

/-- Phase 2 classification and dispatch (src/gateway.js:641-666). -/
def run_phase2 (g : Gateway) (p : GatewayBackendParser) (req : Request)
    (info1 : GatewayRequestInfo) : MiddlewareOutcome :=
  let info := parse_request_intercept_info p info1 req g
  if !info.is_gateway_intercept then .pass_next
  else if info.is_websocket_request then .websocket_proxy info
  else if !info.is_gateway_host then
    .redirect 302 (get_gateway_host_redirect g req info) info
  else .http_proxy info

/-- `run_middleware` (src/gateway.js:615-677): phase 1, then the filter
check — a strict-`false` return or a filter-made `next` call short-circuits —
then phase 2 and dispatch. -/
def run_middleware (g : Gateway) (p : GatewayBackendParser)
    (filt : Option (GatewayRequestInfo → FilterAction)) (req : Request) :
    MiddlewareOutcome :=
  let info1 := parse_request_core_info p g req
  match filt with
  | none => run_phase2 g p req info1
  | some f =>
    let a := f info1
    if a.returns_false || a.calls_next then
      if a.calls_next then .pass_override else .pass_next
    else run_phase2 g p req info1

/-- The header forwarding of `create_proxy_request` at its middleware call
sites (src/gateway.js:284-291, invoked with `headers = null` and
`override_headers = false`): the client headers are copied, then the `host`
entry is cleared when its value ends with `backend_url.host`. -/
def forward_proxy_headers (hs : ReqHeaders) (backend_host : String) : ReqHeaders :=
  if strEndsWith ((hs.host).getD "") backend_host then { hs with host := none } else hs

/-- The request options built by `create_proxy_request`
(src/gateway.js:276-291). -/
structure ProxyRequestOptions where
  method : Option String
  protocol : String
  hostname : String
  port : String
  path : String
  headers : ReqHeaders
deriving DecidableEq

/-- `create_proxy_request`'s options construction (src/gateway.js:276-291). -/
def create_proxy_request_options (req : Request) (info : GatewayRequestInfo) :
    ProxyRequestOptions :=
  let u := (info.backend_url).getD emptyUrl
  { method := info.target_method
    protocol := Url.protocol u
    hostname := u.hostname
    port := u.port
    path := u.pathname ++ u.search
    headers := forward_proxy_headers req.headers u.host }

/-- A response header value as delivered by Node: a scalar string, or an
array of strings (e.g. `set-cookie`). -/
inductive HVal where
  | str (s : String)
  | arr (l : List String)
deriving DecidableEq

/-- The loop body of `create_websocket_socket_header` over the headers object
(src/gateway.js:364-373).  For a scalar header it pushes `key + ': ' + value`.
For a non-empty array-valued header the source executes
`lines.push(key + ': ' + value[i])` where neither `value` nor `i` is in
scope, raising a `ReferenceError`; `none` models that exception.  An empty
array runs the `forEach` callback zero times and pushes nothing. -/
def ws_header_lines : List (String × HVal) → Option (List String)
  | [] => some []
  | (k, HVal.str v) :: rest => (ws_header_lines rest).map (fun ls => (k ++ ": " ++ v) :: ls)
  | (_, HVal.arr l) :: rest => if l.isEmpty then ws_header_lines rest else none

/-- `create_websocket_socket_header` (src/gateway.js:358-376) as invoked at
its single call site (src/gateway.js:413-418), with the status-line string
and the upstream response headers: all pushed lines joined by CRLF and
terminated by a blank line. -/
def create_websocket_socket_header (status : String)
    (headers : List (String × HVal)) : Option String :=
  (ws_header_lines headers).map
    (fun ls => String.intercalate "\r\n" (status :: ls) ++ "\r\n\r\n")

/-- The protocol resolved before the `force_http` downgrade:
`force_protocol` when set, else the request protocol. -/
def pre_protocol (g : Gateway) (req : Request) : String :=
  (g.force_protocol).getD req.protocol

/- Concrete fixtures used by counterexamples and witnesses. -/

/-- A backend URL as a route parser would produce it (spec scenario 3). -/
def urlHttpX : Url :=
  { scheme := "http", host := "127.0.0.1:3030", hostname := "127.0.0.1",
    port := "3030", pathname := "/x", search := "" }

/-- A backend URL whose pathname carries a trailing `/.websocket` segment. -/
def urlWs : Url :=
  { scheme := "http", host := "127.0.0.1:3030", hostname := "127.0.0.1",
    port := "3030", pathname := "/a/.websocket", search := "" }

/-- A parser whose route slot always resolves to `u`. -/
def parserConst (u : Url) : GatewayBackendParser :=
  { parse_url_from_id_fn := fun _ _ _ => some u
    parse_url_from_route_fn := fun _ _ => some u }

/-- A parser whose route slot always declines (`parse_url_from_route`
returns null). -/
def parserNullRoute : GatewayBackendParser :=
  { parse_url_from_id_fn := fun _ _ _ => none
    parse_url_from_route_fn := fun _ _ => none }

/-- A gateway configured with an explicit gateway host. -/
def gwExample : Gateway := { gateway_host := some "example.com" }

/-- A gateway with `force_http = true` (the default) and
`force_protocol = "wss"`. -/
def gwWss : Gateway :=
  { gateway_host := some "example.com", force_protocol := some "wss" }

/-- A request addressed to a non-gateway host. -/
def reqOther : Request :=
  { protocol := "http", headers := { host := some "other.com" } }

/-- An HTTPS request addressed to a non-gateway host. -/
def reqHttpsOther : Request :=
  { protocol := "https", headers := { host := some "other.com" } }

/-- A request info record marked as a websocket request, as phase 1 yields
for an `Upgrade: websocket` request on a non-gateway host. -/
def infoWs : GatewayRequestInfo := { is_websocket_request := true }

/-- C6: `map_dns_status_to_http_code` is total with range contained in
`{403, 404, 500}`; `NOTFOUND` maps to 404; `REFUSED`, `CANCELLED` and
`CONNREFUSED` map to 403; every other input, including null (`none`), maps
to 500. -/
theorem dns_status_map_total :
    map_dns_status_to_http_code (some dnsNOTFOUND) = 404
    ∧ map_dns_status_to_http_code (some dnsREFUSED) = 403
    ∧ map_dns_status_to_http_code (some dnsCANCELLED) = 403
    ∧ map_dns_status_to_http_code (some dnsCONNREFUSED) = 403
    ∧ map_dns_status_to_http_code none = 500
    ∧ (∀ x : Option String,
        map_dns_status_to_http_code x = 403 ∨ map_dns_status_to_http_code x = 404 ∨
          map_dns_status_to_http_code x = 500)
    ∧ (∀ x : Option String, x ≠ some dnsNOTFOUND → x ≠ some dnsREFUSED →
        x ≠ some dnsCANCELLED → x ≠ some dnsCONNREFUSED →
        map_dns_status_to_http_code x = 500) := by
  refine ⟨by decide, by decide, by decide, by decide, by decide, ?_, ?_⟩
  · intro x
    unfold map_dns_status_to_http_code
    split_ifs <;> omega
  · intro x h1 h2 h3 h4
    unfold map_dns_status_to_http_code
    rw [if_neg h1, if_neg (fun hcon => hcon.elim h2 (fun hcon2 => hcon2.elim h3 h4))]

/-- C6 witness: an unknown error token maps to 500, via the totality
theorem. -/
theorem dns_status_map_total_witness :
    map_dns_status_to_http_code (some "EBADF") = 500 :=
  dns_status_map_total.2.2.2.2.2.2 (some "EBADF")
    (by decide) (by decide) (by decide) (by decide)

/-- C5: evaluation of `create_websocket_socket_header` at its call-site
status line.  With scalar-only upstream headers it produces exactly the
claimed wire format — status line, one `Key: value` line per header, CRLF
separators, blank-line terminator.  With a non-empty array-valued header
(Node delivers `set-cookie` as an array) the source raises a
`ReferenceError` — the `value[i]` typo noted by the spec — modelled as
`none`: the claimed one-line-per-element serialization never happens. -/
theorem websocket_upgrade_header_bug :
    create_websocket_socket_header "HTTP/1.1 101 Switching Protocols"
        [("upgrade", HVal.str "websocket"), ("connection", HVal.str "Upgrade")] =
      some "HTTP/1.1 101 Switching Protocols\r\nupgrade: websocket\r\nconnection: Upgrade\r\n\r\n"
    ∧ create_websocket_socket_header "HTTP/1.1 101 Switching Protocols"
        [("set-cookie", HVal.arr ["a=1", "b=2"])] = none := by
  constructor
  · rfl
  · rfl

/-- C3: the filter tri-state.  (a) A strict-`false` return with no
filter-made `next` call passes through via the middleware's own `next()`
with no interception; (b) if the filter invoked the `next` it was passed,
the middleware returns that call's result and does not call `next` itself —
this branch takes precedence, as the source checks `is_next_override`
first; (c) any other return value proceeds to Phase 2 classification. -/
theorem filter_tri_state (g : Gateway) (p : GatewayBackendParser) (req : Request)
    (f : GatewayRequestInfo → FilterAction) :
    ((f (parse_request_core_info p g req)).returns_false = true →
      (f (parse_request_core_info p g req)).calls_next = false →
      run_middleware g p (some f) req = MiddlewareOutcome.pass_next)
    ∧ ((f (parse_request_core_info p g req)).calls_next = true →
        run_middleware g p (some f) req = MiddlewareOutcome.pass_override)
    ∧ ((f (parse_request_core_info p g req)).returns_false = false →
        (f (parse_request_core_info p g req)).calls_next = false →
        run_middleware g p (some f) req =
          run_phase2 g p req (parse_request_core_info p g req)) := by
  refine ⟨?_, ?_, ?_⟩
  · intro h1 h2
    simp [run_middleware, h1, h2]
  · intro h1
    simp [run_middleware, h1]
  · intro h1 h2
    simp [run_middleware, h1, h2]

/-- C3 witness: a vetoing filter (returns strict `false`, does not call
`next`) yields the middleware's own pass-through. -/
theorem filter_tri_state_witness :
    run_middleware gwExample (parserConst urlHttpX)
        (some (fun _ => { returns_false := true, calls_next := false })) reqOther =
      MiddlewareOutcome.pass_next :=
  (filter_tri_state gwExample (parserConst urlHttpX) reqOther
    (fun _ => { returns_false := true, calls_next := false })).1 rfl rfl

/-- C7: pass-through safety.  When the host is not a gateway host and
`parse_url_from_route` returns null, `is_gateway_intercept` ends up false and
the middleware run terminates in a pass-through — the framework `next()` is
invoked (by the middleware itself, or by the filter via the provided
`next`) — and no proxy, redirect or websocket dispatch is produced, for any
filter. -/
theorem pass_through_safety (g : Gateway) (p : GatewayBackendParser) (req : Request)
    (filt : Option (GatewayRequestInfo → FilterAction))
    (hhost : (parse_request_core_info p g req).is_gateway_host = false)
    (hroute : p.parse_url_from_route_fn g req = none) :
    (parse_request_intercept_info p (parse_request_core_info p g req) req g).is_gateway_intercept
      = false
    ∧ (run_middleware g p filt req = MiddlewareOutcome.pass_next ∨
       run_middleware g p filt req = MiddlewareOutcome.pass_override) := by
  have hint : (parse_request_intercept_info p (parse_request_core_info p g req) req
      g).is_gateway_intercept = false := by
    simp [parse_request_intercept_info, hhost, hroute]
  refine ⟨hint, ?_⟩
  cases filt with
  | none =>
    left
    simp [run_middleware, run_phase2, hint]
  | some f =>
    by_cases hb : (f (parse_request_core_info p g req)).calls_next = true
    · right
      simp [run_middleware, hb]
    · left
      simp only [Bool.not_eq_true] at hb
      by_cases hr : (f (parse_request_core_info p g req)).returns_false = true
      · simp [run_middleware, hb, hr]
      · simp only [Bool.not_eq_true] at hr
        simp [run_middleware, run_phase2, hb, hr, hint]

/-- C7 witness: a request to a non-gateway host whose route parser declines
is passed through with no interception. -/
theorem pass_through_safety_witness :
    (parse_request_intercept_info parserNullRoute
        (parse_request_core_info parserNullRoute gwExample reqOther) reqOther
        gwExample).is_gateway_intercept = false
    ∧ (run_middleware gwExample parserNullRoute none reqOther =
        MiddlewareOutcome.pass_next ∨
       run_middleware gwExample parserNullRoute none reqOther =
        MiddlewareOutcome.pass_override) :=
  pass_through_safety gwExample parserNullRoute reqOther none (by decide) rfl

/-- C8: host header rewrite.  The forwarded header set equals the client's
headers except for `host`: it is cleared exactly when its value ends with
`backend_url.host`, and forwarded byte-for-byte otherwise; all other headers
are unchanged. -/
theorem host_header_rewrite (req : Request) (info : GatewayRequestInfo) (u : Url)
    (hurl : info.backend_url = some u) :
    (create_proxy_request_options req info).headers.rest = req.headers.rest
    ∧ (create_proxy_request_options req info).headers.sec_websocket_protocol =
        req.headers.sec_websocket_protocol
    ∧ (create_proxy_request_options req info).headers.upgrade = req.headers.upgrade
    ∧ (strEndsWith ((req.headers.host).getD "") u.host = true →
        (create_proxy_request_options req info).headers.host = none)
    ∧ (strEndsWith ((req.headers.host).getD "") u.host = false →
        (create_proxy_request_options req info).headers.host = req.headers.host) := by
  by_cases hends : strEndsWith ((req.headers.host).getD "") u.host = true
  · refine ⟨?_, ?_, ?_, ?_, ?_⟩ <;>
      simp [create_proxy_request_options, forward_proxy_headers, hurl, hends]
  · simp only [Bool.not_eq_true] at hends
    refine ⟨?_, ?_, ?_, ?_, ?_⟩ <;>
      simp [create_proxy_request_options, forward_proxy_headers, hurl, hends]

/-- A backend URL for the header-rewrite witness. -/
def urlBackend : Url := { scheme := "http", host := "backend.com" }

/-- A client request whose Host header ends with the backend host. -/
def reqSelf : Request :=
  { headers := { host := some "svc.backend.com", rest := [("x-a", "1")] } }

/-- An info record pointing at `urlBackend`. -/
def infoBackend : GatewayRequestInfo := { backend_url := some urlBackend }

/-- C8 witness: a Host header ending in the backend host is cleared, and the
other headers are forwarded unchanged. -/
theorem host_header_rewrite_witness :
    (create_proxy_request_options reqSelf infoBackend).headers.host = none
    ∧ (create_proxy_request_options reqSelf infoBackend).headers.rest =
        reqSelf.headers.rest :=
  ⟨(host_header_rewrite reqSelf infoBackend urlBackend rfl).2.2.2.1 (by decide),
   (host_header_rewrite reqSelf infoBackend urlBackend rfl).1⟩

/- Characterisation of phase 2 on its two branches. -/

theorem intercept_info_none (p : GatewayBackendParser) (g : Gateway) (req : Request)
    (info1 : GatewayRequestInfo)
    (hbu : (if info1.is_gateway_host then info1.backend_url
            else p.parse_url_from_route_fn g req) = none) :
    parse_request_intercept_info p info1 req g =
      { info1 with is_gateway_intercept := false, backend_url := none } := by
  unfold parse_request_intercept_info
  rw [hbu]

theorem intercept_info_some (p : GatewayBackendParser) (g : Gateway) (req : Request)
    (info1 : GatewayRequestInfo) (u0 : Url)
    (hbu : (if info1.is_gateway_host then info1.backend_url
            else p.parse_url_from_route_fn g req) = some u0) :
    parse_request_intercept_info p info1 req g =
      { info1 with
        is_gateway_intercept := true
        target_id := some (match info1.target_id with
          | some t => if t = "" then u0.host else t
          | none => u0.host)
        target_method := some (GatewayBackendParser.parse_method p g req)
        backend_url := some (
          let u1 := Url.setProtocol u0 (GatewayBackendParser.parse_protocol p g req)
          if info1.is_websocket_request then
            { u1 with pathname := strip_websocket_path u1.pathname }
          else u1) } := by
  unfold parse_request_intercept_info
  rw [hbu]

/-- C2 (amended): with `force_http = true` and the default `parse_protocol`,
protocol resolution downgrades `https` to `http` and leaves every other
value — including `wss` — unchanged; consequently the scheme written to
`backend_url` for a classified request lies in `{http, ws}` whenever the
pre-downgrade protocol (`force_protocol` when set, else the request
protocol) lies in `{http, https, ws}`, but a pre-downgrade `wss` is
forwarded as `wss`.  The original claim (every classified request forwards
with scheme in `{http, ws}`, `wss` being downgraded to `ws`) is refuted by
`force_http_downgrade_counterexample`. -/
theorem force_http_downgrade (g : Gateway) (p : GatewayBackendParser) (req : Request)
    (hfn : p.parse_protocol_fn = none) (hf : g.force_http = true) :
    (GatewayBackendParser.parse_protocol p g req =
      if pre_protocol g req = "https" then "http" else pre_protocol g req)
    ∧ ((pre_protocol g req = "http" ∨ pre_protocol g req = "https" ∨
          pre_protocol g req = "ws") →
        (GatewayBackendParser.parse_protocol p g req = "http" ∨
          GatewayBackendParser.parse_protocol p g req = "ws"))
    ∧ (pre_protocol g req = "wss" →
        GatewayBackendParser.parse_protocol p g req = "wss")
    ∧ (∀ info1 u,
        (parse_request_intercept_info p info1 req g).backend_url = some u →
        u.scheme =
          String.mk (takeUntilColon (GatewayBackendParser.parse_protocol p g req).data)) := by
  have hbase : GatewayBackendParser.parse_protocol p g req =
      if pre_protocol g req = "https" then "http" else pre_protocol g req := by
    unfold GatewayBackendParser.parse_protocol
    rw [hfn]
    simp only [hf, Bool.true_and, pre_protocol]
    by_cases hq : (g.force_protocol).getD req.protocol = "https"
    · rw [if_pos hq, if_pos (by exact beq_iff_eq.mpr hq)]
    · rw [if_neg hq, if_neg (by simpa [beq_iff_eq] using hq)]
  refine ⟨hbase, ?_, ?_, ?_⟩
  · rintro (hp | hp | hp)
    · left
      rw [hbase, hp, if_neg (by decide)]
    · left
      rw [hbase, hp, if_pos rfl]
    · right
      rw [hbase, hp, if_neg (by decide)]
  · intro hp
    rw [hbase, hp, if_neg (by decide)]
  · intro info1 u hu
    rcases hbu : (if info1.is_gateway_host then info1.backend_url
        else p.parse_url_from_route_fn g req) with _ | u0
    · rw [intercept_info_none p g req info1 hbu] at hu
      exact absurd hu (by simp)
    · rw [intercept_info_some p g req info1 u0 hbu] at hu
      simp only [Option.some.injEq] at hu
      rw [← hu]
      by_cases hws : info1.is_websocket_request <;> simp [hws, Url.setProtocol]

/-- C2 counterexample: `force_http = true` together with
`force_protocol = "wss"` yields a classified request whose `backend_url`
scheme at forwarding time is `wss`, which is neither `http` nor `ws` — the
source never downgrades `wss` to `ws` (that code is commented out). -/
theorem force_http_downgrade_counterexample :
    gwWss.force_http = true
    ∧ (parse_request_intercept_info (parserConst urlHttpX)
        (parse_request_core_info (parserConst urlHttpX) gwWss reqOther) reqOther
        gwWss).is_gateway_intercept = true
    ∧ Option.map Url.scheme ((parse_request_intercept_info (parserConst urlHttpX)
        (parse_request_core_info (parserConst urlHttpX) gwWss reqOther) reqOther
        gwWss).backend_url) = some "wss"
    ∧ ¬ ((("wss" : String) = "http") ∨ (("wss" : String) = "ws")) := by
  exact ⟨rfl, by decide, by decide, by decide⟩

/-- C2 witness: a classified HTTPS request under the default configuration is
downgraded to `http`. -/
theorem force_http_downgrade_witness :
    GatewayBackendParser.parse_protocol (parserConst urlHttpX) gwExample
        reqHttpsOther = "http" ∨
    GatewayBackendParser.parse_protocol (parserConst urlHttpX) gwExample
        reqHttpsOther = "ws" :=
  (force_http_downgrade gwExample (parserConst urlHttpX) reqHttpsOther rfl rfl).2.1
    (by decide)

/-- Stripping really removes a trailing `/.websocket`: appending it back
restores the original pathname. -/
theorem strip_websocket_path_append {s : String}
    (h : strEndsWith s "/.websocket" = true) :
    strip_websocket_path s ++ "/.websocket" = s := by
  unfold strip_websocket_path
  rw [if_pos h]
  unfold strEndsWith at h
  rw [List.isSuffixOf_iff_suffix] at h
  obtain ⟨pre, hpre⟩ := h
  unfold strDropRight
  have htake : s.data.take (s.data.length - 11) = pre := by
    rw [← hpre, List.length_append,
      show (("/.websocket" : String).data.length = 11) from rfl]
    simp only [Nat.add_sub_cancel]
    exact List.take_left pre _
  rw [htake]
  cases s with
  | mk sd =>
    show String.mk (pre ++ ("/.websocket" : String).data) = String.mk sd
    exact congrArg String.mk hpre

/-- C9: for a classified request, the backend pathname is
`strip_websocket_path` of the parser-produced pathname exactly when
`is_websocket_request` holds, and is left unchanged by this step otherwise;
the strip removes one trailing `/.websocket` segment when present. -/
theorem websocket_path_strip (g : Gateway) (p : GatewayBackendParser) (req : Request)
    (info1 : GatewayRequestInfo) (u : Url)
    (hsrc : (if info1.is_gateway_host then info1.backend_url
             else p.parse_url_from_route_fn g req) = some u) :
    (parse_request_intercept_info p info1 req g).is_gateway_intercept = true
    ∧ Option.map Url.pathname ((parse_request_intercept_info p info1 req g).backend_url)
        = some (if info1.is_websocket_request then strip_websocket_path u.pathname
                else u.pathname)
    ∧ (info1.is_websocket_request = true → strEndsWith u.pathname "/.websocket" = true →
        strip_websocket_path u.pathname ++ "/.websocket" = u.pathname)
    ∧ (info1.is_websocket_request = false →
        Option.map Url.pathname ((parse_request_intercept_info p info1 req g).backend_url)
          = some u.pathname) := by
  rw [intercept_info_some p g req info1 u hsrc]
  refine ⟨rfl, ?_, ?_, ?_⟩
  · by_cases hws : info1.is_websocket_request <;> simp [hws, Url.setProtocol]
  · intro _ h2
    exact strip_websocket_path_append h2
  · intro hws
    simp [hws, Url.setProtocol]

/-- C9 witness: a websocket-classified request has its trailing
`/.websocket` removed, and appending it back restores the parsed pathname. -/
theorem websocket_path_strip_witness :
    (parse_request_intercept_info (parserConst urlWs) infoWs reqOther
        gwExample).is_gateway_intercept = true
    ∧ strip_websocket_path "/a/.websocket" ++ "/.websocket" = "/a/.websocket" :=
  ⟨(websocket_path_strip gwExample (parserConst urlWs) reqOther infoWs urlWs
      (by decide)).1,
   (websocket_path_strip gwExample (parserConst urlWs) reqOther infoWs urlWs
      (by decide)).2.2.1 rfl (by decide)⟩

/-- C4: redirect wire format.  For an intercepted request that is neither a
websocket request nor on a gateway host, and a gateway configured with an
explicit `gateway_host`, the middleware responds via `res.redirect` (HTTP
302) with Location exactly
`backend_url.protocol ++ "//" ++ encode_hostname target_id ++ "." ++
gateway_subdomain ++ "." ++ gateway_host ++ backend_url.pathname ++
backend_url.search`. -/
theorem redirect_wire_format (g : Gateway) (p : GatewayBackendParser) (req : Request)
    (gh : String) (u : Url) (tid : String)
    (hconf : g.gateway_host = some gh)
    (hint : (parse_request_intercept_info p (parse_request_core_info p g req) req
        g).is_gateway_intercept = true)
    (hws : (parse_request_intercept_info p (parse_request_core_info p g req) req
        g).is_websocket_request = false)
    (hhost : (parse_request_intercept_info p (parse_request_core_info p g req) req
        g).is_gateway_host = false)
    (hurl : (parse_request_intercept_info p (parse_request_core_info p g req) req
        g).backend_url = some u)
    (htid : (parse_request_intercept_info p (parse_request_core_info p g req) req
        g).target_id = some tid) :
    run_middleware g p none req =
      MiddlewareOutcome.redirect 302
        (Url.protocol u ++ "//" ++ encode_hostname_str tid ++ "." ++
          g.gateway_subdomain ++ "." ++ gh ++ u.pathname ++ u.search)
        (parse_request_intercept_info p (parse_request_core_info p g req) req g) := by
  show run_phase2 g p req (parse_request_core_info p g req) = _
  unfold run_phase2
  simp only [hint, hws, hhost, Bool.not_true, Bool.not_false, if_false, if_true,
    Bool.false_eq_true, Bool.true_eq_false]
  unfold get_gateway_host_redirect get_gateway_host
  rw [hconf, hurl, htid]
  rfl

/-- C4 witness: spec scenario 3 — a route-resolved backend
`http://127.0.0.1:3030/x` on gateway `example.com` redirects with status 302
to the encoded-subdomain Location. -/
theorem redirect_wire_format_witness :
    run_middleware gwExample (parserConst urlHttpX) none reqOther =
      MiddlewareOutcome.redirect 302
        (Url.protocol urlHttpX ++ "//" ++ encode_hostname_str "127.0.0.1:3030" ++
          "." ++ gwExample.gateway_subdomain ++ "." ++ "example.com" ++
          urlHttpX.pathname ++ urlHttpX.search)
        (parse_request_intercept_info (parserConst urlHttpX)
          (parse_request_core_info (parserConst urlHttpX) gwExample reqOther)
          reqOther gwExample) :=
  redirect_wire_format gwExample (parserConst urlHttpX) reqOther "example.com"
    urlHttpX "127.0.0.1:3030" rfl (by decide) (by decide) (by decide) (by decide)
    (by decide)
